import Mathlib

/-!
Verification of the market-data aggregation and signal-dispatch core of the
`bct` repository (Python backend under `src/backend/`).

The Python code is shallowly embedded: floats are modelled as rationals,
timestamps as natural numbers, Python exceptions as an explicit `Except`
monad, and the external world (network fetches, the LLM oracle reply,
random draws, clock readings) as explicit parameters.  JSON values are
modelled by an inductive type together with an executable parser that
follows the core JSON grammar accepted by Python's `json.loads`.
-/

set_option maxRecDepth 8192

/-! ## Kernel-computable rational arithmetic

The standard rational operations of the ambient library are declared
irreducible, so the embedding uses its own operations built from `mkRat`,
`Rat.num` and `Rat.den`, which evaluate by reduction.  Bridge lemmas below
identify them with the standard operations, so theorem statements can use
the ordinary arithmetic operators. -/

def qadd (a b : ℚ) : ℚ := mkRat (a.num * b.den + b.num * a.den) (a.den * b.den)

def qsub (a b : ℚ) : ℚ := mkRat (a.num * b.den - b.num * a.den) (a.den * b.den)

def qmul (a b : ℚ) : ℚ := mkRat (a.num * b.num) (a.den * b.den)

def qneg (a : ℚ) : ℚ := mkRat (-a.num) a.den

/-- Multiplication by a power of ten (used for number exponents). -/
def qmulPow10 (q : ℚ) (k : ℕ) : ℚ := mkRat (q.num * (10 : ℤ) ^ k) q.den

/-- Division by a power of ten (used for fractional digits and negative
exponents). -/
def qdivPow10 (q : ℚ) (k : ℕ) : ℚ := mkRat q.num (q.den * 10 ^ k)

/-- Strict comparison by cross-multiplication (denominators are positive). -/
def qblt (a b : ℚ) : Bool := decide (a.num * b.den < b.num * a.den)

/-- Absolute value via the sign of the numerator. -/
def qabs (a : ℚ) : ℚ := if a.num < 0 then qneg a else a

theorem den_cast_ne_zero (a : ℚ) : ((a.den : ℚ)) ≠ 0 :=
  Nat.cast_ne_zero.mpr (Rat.den_ne_zero a)

theorem den_cast_pos (a : ℚ) : (0 : ℚ) < ((a.den : ℚ)) :=
  Nat.cast_pos.mpr a.pos

theorem int_den_ne_zero (a : ℚ) : ((a.den : ℤ)) ≠ 0 :=
  Int.natCast_ne_zero.mpr (Rat.den_ne_zero a)

theorem qadd_eq_add (a b : ℚ) : qadd a b = a + b := by
  rw [qadd, Rat.mkRat_eq_divInt]
  conv_rhs => rw [← Rat.num_divInt_den a, ← Rat.num_divInt_den b]
  rw [Rat.divInt_add_divInt _ _ (int_den_ne_zero a) (int_den_ne_zero b), Nat.cast_mul]

theorem qsub_eq_sub (a b : ℚ) : qsub a b = a - b := by
  rw [qsub, Rat.mkRat_eq_divInt]
  conv_rhs => rw [← Rat.num_divInt_den a, ← Rat.num_divInt_den b]
  rw [Rat.divInt_sub_divInt _ _ (int_den_ne_zero a) (int_den_ne_zero b), Nat.cast_mul]

theorem qmul_eq_mul (a b : ℚ) : qmul a b = a * b := by
  rw [qmul, Rat.mkRat_eq_divInt]
  conv_rhs => rw [← Rat.num_divInt_den a, ← Rat.num_divInt_den b]
  rw [Rat.divInt_mul_divInt', Nat.cast_mul]

theorem qneg_eq_neg (a : ℚ) : qneg a = -a := by
  rw [qneg, Rat.mkRat_eq_divInt, ← Rat.neg_divInt, Rat.num_divInt_den]

theorem rat_lt_iff_num (a b : ℚ) : a < b ↔ a.num * b.den < b.num * a.den := by
  have ha := den_cast_pos a
  have hb := den_cast_pos b
  constructor
  · intro h
    have h2 : (a.num : ℚ) / a.den < (b.num : ℚ) / b.den := by
      rwa [Rat.num_div_den, Rat.num_div_den]
    have h3 := (div_lt_div_iff₀ ha hb).mp h2
    exact_mod_cast h3
  · intro h
    have h2 : (a.num : ℚ) * b.den < (b.num : ℚ) * a.den := by exact_mod_cast h
    have h3 := (div_lt_div_iff₀ ha hb).mpr h2
    rwa [Rat.num_div_den, Rat.num_div_den] at h3

theorem qblt_iff_lt (a b : ℚ) : qblt a b = true ↔ a < b := by
  rw [qblt, decide_eq_true_eq, rat_lt_iff_num]

theorem qabs_eq_abs (a : ℚ) : qabs a = |a| := by
  rw [qabs]
  rcases lt_or_le a.num 0 with h | h
  · rw [if_pos h, qneg_eq_neg, abs_of_neg (Rat.num_neg.mp h)]
  · rw [if_neg (not_lt.mpr h), abs_of_nonneg (Rat.num_nonneg.mp h)]

/-! ## Character-list utilities (Python string operations) -/

/-- Python `str.strip()`: remove leading and trailing whitespace. -/
def trimChars (cs : List Char) : List Char :=
  ((cs.dropWhile Char.isWhitespace).reverse.dropWhile Char.isWhitespace).reverse

/-- Suffix after the first occurrence of `sep`, or `none` when `sep` does not
occur.  `(dropThrough sep cs).isSome` is Python's substring test `sep in cs`,
and the suffix itself is the start of `cs.split(sep)[1]`. -/
def dropThrough (sep : List Char) : List Char → Option (List Char)
  | [] => none
  | c :: cs =>
    if sep.isPrefixOf (c :: cs) then some (List.drop sep.length (c :: cs))
    else dropThrough sep cs

/-- Prefix before the first occurrence of `sep` (the whole list when `sep`
does not occur): Python `cs.split(sep)[0]`. -/
def takeUntil (sep : List Char) : List Char → List Char
  | [] => []
  | c :: cs =>
    if sep.isPrefixOf (c :: cs) then []
    else c :: takeUntil sep cs

/-- Numeric value of a list of decimal digits. -/
def digitsVal (ds : List Char) : ℕ :=
  ds.foldl (fun a c => a * 10 + (c.toNat - 48)) 0

/-! ## JSON values

Model of the Python objects produced by `json.loads`: `None`, `bool`,
numbers (collapsing `int`/`float` to one rational-valued case), `str`,
`list` and string-keyed `dict`. -/

inductive Json where
  | null : Json
  | bool (b : Bool) : Json
  | num (q : ℚ) : Json
  | str (s : String) : Json
  | arr (elems : List Json) : Json
  | obj (fields : List (String × Json)) : Json

/-- Key lookup in a JSON object's field list (Python `dict` access). -/
def jsonLookup (key : String) : List (String × Json) → Option Json
  | [] => none
  | kv :: rest => if kv.1 = key then some kv.2 else jsonLookup key rest

/-- The keys of a JSON object, in order (Python `dict.keys()`). -/
def objKeys : Json → List String
  | Json.obj fields => fields.map Prod.fst
  | _ => []

/-- Python truthiness of a decoded JSON value. -/
def jsonTruthy : Json → Bool
  | Json.null => false
  | Json.bool b => b
  | Json.num q => decide (q ≠ 0)
  | Json.str s => !s.data.isEmpty
  | Json.arr elems => !elems.isEmpty
  | Json.obj fields => !fields.isEmpty

/-! ## JSON parser (model of Python `json.loads`)

Executable parser for the core JSON grammar: objects, arrays, strings with
the common escapes, numbers with optional fraction and exponent, `true`,
`false`, `null`.  Recursion is by an explicit fuel argument. -/

/-- JSON insignificant whitespace. -/
def isJsonWs (c : Char) : Bool :=
  c = ' ' || c = '\t' || c = '\n' || c = '\r'

def skipWs (cs : List Char) : List Char := cs.dropWhile isJsonWs

/-- String body after the opening quote: content characters and remainder. -/
def parseStringAux : List Char → Option (List Char × List Char)
  | [] => none
  | '"' :: rest => some ([], rest)
  | '\\' :: e :: rest =>
    (match e with
     | '"' => some '"'
     | '\\' => some '\\'
     | '/' => some '/'
     | 'n' => some '\n'
     | 't' => some '\t'
     | 'r' => some '\r'
     | 'b' => some (Char.ofNat 8)
     | 'f' => some (Char.ofNat 12)
     | _ => none).bind
      (fun c => (parseStringAux rest).map
        (fun p : List Char × List Char => (c :: p.1, p.2)))
  | '\\' :: [] => none
  | c :: rest =>
    (parseStringAux rest).map (fun p : List Char × List Char => (c :: p.1, p.2))

def parseStringChars (cs : List Char) : Option (String × List Char) :=
  (parseStringAux cs).map (fun p => (String.mk p.1, p.2))

/-- Exponent digits after an `e`/`E` marker. -/
def parseExpDigits (q : ℚ) (r : List Char) : Option (ℚ × List Char) :=
  let sr : Bool × List Char :=
    match r with
    | '-' :: rr => (true, rr)
    | '+' :: rr => (false, rr)
    | _ => (false, r)
  let es := sr.2.takeWhile Char.isDigit
  if es = [] then none
  else
    some ((if sr.1 then qdivPow10 q (digitsVal es) else qmulPow10 q (digitsVal es)),
      sr.2.dropWhile Char.isDigit)

/-- Optional exponent part of a number. -/
def parseExpPart (q : ℚ) : List Char → Option (ℚ × List Char)
  | 'e' :: r => parseExpDigits q r
  | 'E' :: r => parseExpDigits q r
  | cs => some (q, cs)

/-- Optional fractional part of a number. -/
def parseFracPart (q : ℚ) : List Char → Option (ℚ × List Char)
  | '.' :: r =>
    let fs := r.takeWhile Char.isDigit
    if fs = [] then none
    else
      some (qadd q (qdivPow10 (mkRat (digitsVal fs) 1) fs.length),
        r.dropWhile Char.isDigit)
  | cs => some (q, cs)

/-- JSON number: optional minus sign, integer part, optional fraction and
exponent. -/
def parseNumberChars (cs : List Char) : Option (ℚ × List Char) :=
  let sc : Bool × List Char :=
    match cs with
    | '-' :: r => (true, r)
    | _ => (false, cs)
  let ds := sc.2.takeWhile Char.isDigit
  if ds = [] then none
  else do
    let p1 ← parseFracPart (mkRat (digitsVal ds) 1) (sc.2.dropWhile Char.isDigit)
    let p2 ← parseExpPart p1.1 p1.2
    some ((if sc.1 then qneg p2.1 else p2.1), p2.2)

mutual

def parseValue : ℕ → List Char → Option (Json × List Char)
  | 0, _ => none
  | Nat.succ fuel, cs =>
    match skipWs cs with
    | [] => none
    | '"' :: rest => (parseStringChars rest).map (fun p => (Json.str p.1, p.2))
    | '\x7b' :: rest => (parseFields fuel rest).map (fun p => (Json.obj p.1, p.2))
    | '[' :: rest => (parseElems fuel rest).map (fun p => (Json.arr p.1, p.2))
    | c :: rest =>
      if ("true").data.isPrefixOf (c :: rest) then
        some (Json.bool true, List.drop 4 (c :: rest))
      else if ("false").data.isPrefixOf (c :: rest) then
        some (Json.bool false, List.drop 5 (c :: rest))
      else if ("null").data.isPrefixOf (c :: rest) then
        some (Json.null, List.drop 4 (c :: rest))
      else
        (parseNumberChars (c :: rest)).map (fun p => (Json.num p.1, p.2))

def parseElems : ℕ → List Char → Option (List Json × List Char)
  | 0, _ => none
  | Nat.succ fuel, cs =>
    match skipWs cs with
    | ']' :: rest => some ([], rest)
    | cs1 => do
      let pv ← parseValue fuel cs1
      match skipWs pv.2 with
      | ',' :: r2 => do
        let pr ← parseElems fuel r2
        some (pv.1 :: pr.1, pr.2)
      | ']' :: r2 => some ([pv.1], r2)
      | _ => none

def parseFields : ℕ → List Char → Option (List (String × Json) × List Char)
  | 0, _ => none
  | Nat.succ fuel, cs =>
    match skipWs cs with
    | '\x7d' :: rest => some ([], rest)
    | '"' :: rest => do
      let pk ← parseStringChars rest
      match skipWs pk.2 with
      | ':' :: r2 => do
        let pv ← parseValue fuel r2
        match skipWs pv.2 with
        | ',' :: r3 => do
          let pr ← parseFields fuel r3
          some ((pk.1, pv.1) :: pr.1, pr.2)
        | '\x7d' :: r3 => some ([(pk.1, pv.1)], r3)
        | _ => none
      | _ => none
    | _ => none

end

/-- Model of Python `json.loads` on a character list: parse one value and
require only whitespace after it. -/
def parseJsonChars (cs : List Char) : Option Json :=
  match parseValue (3 * cs.length + 3) cs with
  | some (j, rest) => if skipWs rest = [] then some j else none
  | none => none

/-- Model of Python `json.loads` on a string. -/
def parseJson (s : String) : Option Json := parseJsonChars s.data

/-! ## Python runtime semantics

Python exceptions raised by the modelled code paths, and the Python
operations whose failure modes the code relies on. -/

inductive PyError where
  | jsonDecodeError : PyError
  | keyError (key : String) : PyError
  | valueError : PyError
  | typeError : PyError
  | attributeError : PyError
  | validationError : PyError
deriving DecidableEq

/-- Python membership test `key in data` on a decoded JSON value: key lookup
on a dict, element membership on a list, substring test on a str, and a
TypeError on the remaining types. -/
def pyContains (key : String) : Json → Except PyError Bool
  | Json.obj fields => Except.ok (jsonLookup key fields).isSome
  | Json.arr elems =>
    Except.ok (elems.any (fun v => match v with
      | Json.str s => s = key
      | _ => false))
  | Json.str s => Except.ok (dropThrough key.data s.data).isSome
  | _ => Except.error PyError.typeError

/-- Python subscript `data[key]` with a string key: dict lookup (KeyError
when absent), TypeError on every other type. -/
def pySubscript (key : String) : Json → Except PyError Json
  | Json.obj fields =>
    match jsonLookup key fields with
    | some v => Except.ok v
    | none => Except.error (PyError.keyError key)
  | _ => Except.error PyError.typeError

/-- Python `float(x)` on a decoded JSON value: numbers pass through, bools
coerce to 0 or 1, numeric strings (optional sign, digits, optional fraction
and exponent, surrounding whitespace) are parsed, everything else raises. -/
def pyFloatChars (cs0 : List Char) : Option ℚ :=
  let cs := trimChars cs0
  let sc : Bool × List Char :=
    match cs with
    | '-' :: r => (true, r)
    | '+' :: r => (false, r)
    | _ => (false, cs)
  let ds := sc.2.takeWhile Char.isDigit
  let rest := sc.2.dropWhile Char.isDigit
  let mantissa : Option (ℚ × List Char) :=
    match rest with
    | '.' :: r =>
      let fs := r.takeWhile Char.isDigit
      if ds = [] ∧ fs = [] then none
      else
        some (qadd (mkRat (digitsVal ds) 1) (qdivPow10 (mkRat (digitsVal fs) 1) fs.length),
          r.dropWhile Char.isDigit)
    | _ => if ds = [] then none else some (mkRat (digitsVal ds) 1, rest)
  match mantissa with
  | none => none
  | some m =>
    match parseExpPart m.1 m.2 with
    | some (q2, []) => some (if sc.1 then qneg q2 else q2)
    | _ => none

def pyFloat : Json → Except PyError ℚ
  | Json.num q => Except.ok q
  | Json.bool b => Except.ok (if b then 1 else 0)
  | Json.str s =>
    match pyFloatChars s.data with
    | some q => Except.ok q
    | none => Except.error PyError.valueError
  | _ => Except.error PyError.typeError

/-- Pydantic validation of a `str` field: accepts only strings. -/
def pyStr : Json → Except PyError String
  | Json.str s => Except.ok s
  | _ => Except.error PyError.validationError

/-! ## signal_service.py -/

/-- The `Signal` pydantic model (signal_service.py lines 11-19), with the
timestamp as an abstract clock reading. -/
structure Signal where
  id : String
  signal_type : String
  confidence : ℚ
  reason : String
  binance_price : ℚ
  polymarket_price : ℚ
  price_delta : ℚ
  timestamp : ℕ
deriving DecidableEq

/-- The dictionary returned by `PolymarketService.get_bitcoin_market_price`
(polymarket_service.py lines 47-53).  Only the fields the modelled paths
consult are kept; the producing code always sets the `price` key, so
`.get('price', 0)` is field access. -/
structure PolyData where
  price : ℚ
  volume : ℚ
deriving DecidableEq

def PolyData.getPrice (d : PolyData) : ℚ := d.price

/-- Lines 86-90 of signal_service.py: strip an optional code fence from the
oracle's reply.  `response.strip()`, then if the text contains a json fence
marker take what stands between it and the next plain fence marker, else if
it contains a plain fence marker take what stands between the first two,
each time stripping the extracted slice. -/
def extractResponseText (response : String) : List Char :=
  let fenceJson : List Char := ("```json").data
  let fence : List Char := ("```").data
  let response_text := trimChars response.data
  match dropThrough fenceJson response_text with
  | some afterMarker => trimChars (takeUntil fence afterMarker)
  | none =>
    match dropThrough fence response_text with
    | some afterMarker => trimChars (takeUntil fence afterMarker)
    | none => response_text

/-- The body of the outer `try` of
`SignalGeneratorService.generate_signal` (signal_service.py lines 58-112),
with the inner `except json.JSONDecodeError` handler already applied.
Inputs: the two latest prices (as the services would report them), the
oracle's textual reply, the fresh uuid and the clock reading.  The result
is `ok none` for the handled no-data and undecodable-JSON cases, `ok (some
s)` for a constructed signal, and `error e` for any exception that escapes
toward the outer handler. -/
def generate_signal_try (binance_price : Option ℚ) (polymarket_data : Option PolyData)
    (oracleResponse : String) (freshId : String) (now : ℕ) :
    Except PyError (Option Signal) :=
  match binance_price, polymarket_data with
  | some b, some d =>
    if b = 0 then Except.ok none
    else
      let polymarket_price := PolyData.getPrice d
      let price_delta := qsub b polymarket_price
      let response_text := extractResponseText oracleResponse
      match parseJsonChars response_text with
      | none => Except.ok none
      | some signal_data =>
        match pySubscript ("signal_type") signal_data with
        | Except.error e => Except.error e
        | Except.ok st =>
          match pySubscript ("confidence") signal_data with
          | Except.error e => Except.error e
          | Except.ok conf =>
            match pyFloat conf with
            | Except.error e => Except.error e
            | Except.ok confVal =>
              match pySubscript ("reason") signal_data with
              | Except.error e => Except.error e
              | Except.ok rs =>
                match pyStr st with
                | Except.error e => Except.error e
                | Except.ok stS =>
                  match pyStr rs with
                  | Except.error e => Except.error e
                  | Except.ok rsS =>
                    Except.ok (some
                      { id := freshId, signal_type := stS, confidence := confVal,
                        reason := rsS, binance_price := b,
                        polymarket_price := polymarket_price,
                        price_delta := price_delta, timestamp := now })
  | _, _ => Except.ok none

/-- `SignalGeneratorService.generate_signal` (signal_service.py lines
56-116): the outer `except Exception` handler turns every escaped error
into `None`. -/
def generate_signal (binance_price : Option ℚ) (polymarket_data : Option PolyData)
    (oracleResponse : String) (freshId : String) (now : ℕ) : Option Signal :=
  match generate_signal_try binance_price polymarket_data oracleResponse freshId now with
  | Except.ok r => r
  | Except.error _ => none

/-! ## server.py: the /api/prices/current endpoint -/

/-- Outcome of a FastAPI route: a JSON body or a raised HTTPException. -/
inductive ApiResponse where
  | ok (binance_price polymarket_price price_delta : ℚ) : ApiResponse
  | httpError (statusCode : ℕ) (detail : String) : ApiResponse
deriving DecidableEq

/-- `get_current_prices` (server.py lines 136-159).  `servicesReady` models
the initialization check on the global service objects; the two data
arguments are the readings the services return at this request. -/
def get_current_prices (servicesReady : Bool) (binance_price : Option ℚ)
    (polymarket_data : Option PolyData) : ApiResponse :=
  if !servicesReady then ApiResponse.httpError 503 ("Services not initialized")
  else
    match binance_price with
    | none => ApiResponse.httpError 503 ("Binance price not available")
    | some b =>
      match polymarket_data with
      | some d => ApiResponse.ok b (PolyData.getPrice d) (qsub b (PolyData.getPrice d))
      | none => ApiResponse.ok b 0 0

/-! ## server.py: the monitor loop -/

/-- A Socket.IO broadcast performed during one monitor tick. -/
inductive EmittedEvent where
  | price_update (binance_price polymarket_price price_delta : ℚ) (t : ℕ) : EmittedEvent
  | new_signal (s : Signal) : EmittedEvent
deriving DecidableEq

/-- Observable effects of one body of the `monitor_prices` loop. -/
structure TickEffects where
  emitted : List EmittedEvent
  persisted : List Signal
  policy_invoked : Bool
deriving DecidableEq

/-- One tick body of `monitor_prices` (server.py lines 352-380): guard on
service initialization, read the latest Binance price (Python truthiness:
absent or zero skips the tick), fetch Polymarket data, broadcast a
price-update, and when the absolute delta exceeds 100 invoke the signal
policy, persisting and broadcasting any returned signal. -/
def monitor_tick (servicesReady : Bool) (binance_price : Option ℚ)
    (polymarket_data : Option PolyData) (oracleResponse : String)
    (freshId : String) (now : ℕ) : TickEffects :=
  if servicesReady then
    match binance_price with
    | some b =>
      if b = 0 then TickEffects.mk [] [] false
      else
        match polymarket_data with
        | some d =>
          let polymarket_price := PolyData.getPrice d
          let price_delta := qsub b polymarket_price
          let priceEvent := EmittedEvent.price_update b polymarket_price price_delta now
          if qblt 100 (qabs price_delta) then
            match generate_signal (some b) (some d) oracleResponse freshId now with
            | some s => TickEffects.mk [priceEvent, EmittedEvent.new_signal s] [s] true
            | none => TickEffects.mk [priceEvent] [] true
          else TickEffects.mk [priceEvent] [] false
        | none => TickEffects.mk [] [] false
    | none => TickEffects.mk [] [] false
  else TickEffects.mk [] [] false

/-- Outcome of one tick body as seen by the surrounding `while True`:
normal completion, a raised ordinary exception, or task cancellation
(the host's shutdown request, which is not an `Exception` and therefore
not caught by the handler on line 381). -/
inductive TickOutcome where
  | completed (effects : TickEffects) : TickOutcome
  | raised (e : PyError) : TickOutcome
  | cancelled : TickOutcome
deriving DecidableEq

/-- What the loop does after one tick: sleep for the given interval and
run the next tick, or terminate. -/
inductive LoopAction where
  | sleepThenContinue (interval : ℕ) : LoopAction
  | terminated : LoopAction
deriving DecidableEq

/-- The control flow of `monitor_prices` (server.py lines 349-383) around
one tick: both the normal path (line 380) and the `except Exception`
handler (lines 381-383) sleep 5 time-units and continue; only cancellation
escapes the loop. -/
def monitor_loop_step : TickOutcome → LoopAction
  | TickOutcome.completed _ => LoopAction.sleepThenContinue 5
  | TickOutcome.raised _ => LoopAction.sleepThenContinue 5
  | TickOutcome.cancelled => LoopAction.terminated

/-- The loop's actions over a finite trace of tick outcomes: it processes
outcomes until one makes it terminate. -/
def monitor_prices_trace : List TickOutcome → List LoopAction
  | [] => []
  | o :: os =>
    match monitor_loop_step o with
    | LoopAction.terminated => [LoopAction.terminated]
    | a => a :: monitor_prices_trace os

/-! ## binance_service.py: reconnect backoff -/

/-- One iteration outcome of the `while True` loop in
`BinanceWebSocketService.connect`: either the connection attempt (or the
listener it hands off to) fails with a transport error, or the connection
succeeds. -/
inductive ConnEvent where
  | failure : ConnEvent
  | success : ConnEvent
deriving DecidableEq

/-- Line 41 of binance_service.py: after sleeping, the delay doubles up to
the ceiling of 60. -/
def nextReconnectDelay (reconnect_delay : ℕ) : ℕ :=
  min (reconnect_delay * 2) 60

/-- The sleeps performed by `connect` (binance_service.py lines 20-41) over
a trace of iteration outcomes, starting from the given current delay: a
failure sleeps the current delay and doubles it (capped), a successful
connection resets the delay to 1 (line 32) and sleeps nothing. -/
def connectSleeps : ℕ → List ConnEvent → List ℕ
  | _, [] => []
  | reconnect_delay, ConnEvent.failure :: es =>
    reconnect_delay :: connectSleeps (nextReconnectDelay reconnect_delay) es
  | _, ConnEvent.success :: es => connectSleeps 1 es

/-! ## binance_service.py: the listener -/

/-- The two mutable price fields of `BinanceWebSocketService`. -/
structure ListenerState where
  latest_price : Option ℚ
  last_update : Option ℕ
deriving DecidableEq

/-- Whether the `async for` loop of `_listen` proceeds to the next message
or exits (an exception in the body reaches the handler on line 58, which
logs and lets `_listen` return, abandoning the message loop). -/
inductive ListenOutcome where
  | continueListening : ListenOutcome
  | listenerExit : ListenOutcome
deriving DecidableEq

/-- The body of `_listen` (binance_service.py lines 46-53) for one received
message: decode JSON, test for the price field, and update the latest
sample; the Except layer records the exceptions the body can raise. -/
def listen_body (st : ListenerState) (now : ℕ) (message : String) :
    Except PyError ListenerState :=
  match parseJson message with
  | none => Except.error PyError.jsonDecodeError
  | some data =>
    match pyContains ("p") data with
    | Except.error e => Except.error e
    | Except.ok hasP =>
      if hasP then
        match pySubscript ("p") data with
        | Except.error e => Except.error e
        | Except.ok v =>
          match pyFloat v with
          | Except.error e => Except.error e
          | Except.ok q => Except.ok (ListenerState.mk (some q) (some now))
      else Except.ok st

/-- One message step of `_listen` including its exception handler: a raised
exception leaves the state as it was and abandons the message loop. -/
def listen_step (st : ListenerState) (now : ℕ) (message : String) :
    ListenerState × ListenOutcome :=
  match listen_body st now message with
  | Except.ok st2 => (st2, ListenOutcome.continueListening)
  | Except.error _ => (st, ListenOutcome.listenerExit)

/-! ## wallet_tracking_service.py: detailed positions -/

/-- Python `pos.get(key, 0)` followed by `float(...)`: requires a dict
(AttributeError otherwise), defaults a missing key to 0. -/
def dictGetFloat (key : String) : Json → Except PyError ℚ
  | Json.obj fields => pyFloat ((jsonLookup key fields).getD (Json.num 0))
  | _ => Except.error PyError.attributeError

/-- Line 26: `positions = data if isinstance(data, list) else
data.get('data', [])`; a non-dict payload raises at the `.get` call, and a
non-list `data` member raises when the loop afterwards iterates it. -/
def extractPositions : Json → Except PyError (List Json)
  | Json.arr xs => Except.ok xs
  | Json.obj fields =>
    match (jsonLookup ("data") fields).getD (Json.arr []) with
    | Json.arr xs => Except.ok xs
    | _ => Except.error PyError.typeError
  | _ => Except.error PyError.attributeError

/-- Lines 29-37: split positions by the sign of `float(pos.get('size', 0))`
into buying (positive) and selling (negative), preserving order. -/
def categorize : List Json → Except PyError (List Json × List Json)
  | [] => Except.ok ([], [])
  | pos :: rest =>
    match dictGetFloat ("size") pos with
    | Except.error e => Except.error e
    | Except.ok size =>
      match categorize rest with
      | Except.error e => Except.error e
      | Except.ok br =>
        if qblt 0 size then Except.ok (pos :: br.1, br.2)
        else if qblt size 0 then Except.ok (br.1, pos :: br.2)
        else Except.ok (br.1, br.2)

/-- Lines 40-42: `sum(float(p.get(key, 0)) for p in positions)`. -/
def sumFloatField (key : String) : List Json → Except PyError ℚ
  | [] => Except.ok 0
  | p :: ps =>
    match dictGetFloat key p with
    | Except.error e => Except.error e
    | Except.ok v =>
      match sumFloatField key ps with
      | Except.error e => Except.error e
      | Except.ok r => Except.ok (qadd v r)

/-- The `try` body of `get_wallet_detailed_positions`
(wallet_tracking_service.py lines 18-53) applied to an already-fetched
decoded payload. -/
def live_detailed_positions (address : String) (data : Json) :
    Except PyError Json :=
  match extractPositions data with
  | Except.error e => Except.error e
  | Except.ok positions =>
    match categorize positions with
    | Except.error e => Except.error e
    | Except.ok bs =>
      match sumFloatField ("currentValue") positions with
      | Except.error e => Except.error e
      | Except.ok total_value =>
        match sumFloatField ("unrealizedPnl") positions with
        | Except.error e => Except.error e
        | Except.ok total_pnl =>
          match sumFloatField ("realizedPnl") positions with
          | Except.error e => Except.error e
          | Except.ok realized_pnl =>
            Except.ok (Json.obj
              [(("address"), Json.str address),
               (("buying_positions"), Json.arr bs.1),
               (("selling_positions"), Json.arr bs.2),
               (("total_positions"), Json.num (positions.length : ℚ)),
               (("total_value"), Json.num total_value),
               (("unrealized_pnl"), Json.num total_pnl),
               (("realized_pnl"), Json.num realized_pnl),
               (("total_pnl"), Json.num (qadd total_pnl realized_pnl))])

/-- The hard-coded buying positions of `_get_simulated_positions`
(wallet_tracking_service.py lines 64-85). -/
def simBuyingPositions : List Json :=
  [Json.obj
    [(("market"), Json.str ("Bitcoin $100k by March 2026")),
     (("outcome"), Json.str ("Yes")),
     (("size"), Json.num 250),
     (("avg_price"), Json.num (mkRat 68 100)),
     (("current_price"), Json.num (mkRat 72 100)),
     (("current_value"), Json.num 180),
     (("unrealized_pnl"), Json.num 10),
     (("pnl_percent"), Json.num (mkRat 588 100))],
   Json.obj
    [(("market"), Json.str ("Ethereum $5k by Q2 2026")),
     (("outcome"), Json.str ("Yes")),
     (("size"), Json.num 150),
     (("avg_price"), Json.num (mkRat 55 100)),
     (("current_price"), Json.num (mkRat 58 100)),
     (("current_value"), Json.num 87),
     (("unrealized_pnl"), Json.num (mkRat 45 10)),
     (("pnl_percent"), Json.num (mkRat 545 100))]]

/-- The hard-coded selling positions of `_get_simulated_positions`
(wallet_tracking_service.py lines 87-98). -/
def simSellingPositions : List Json :=
  [Json.obj
    [(("market"), Json.str ("S&P 500 below 5000 by April")),
     (("outcome"), Json.str ("No")),
     (("size"), Json.num (-100)),
     (("avg_price"), Json.num (mkRat 35 100)),
     (("current_price"), Json.num (mkRat 28 100)),
     (("current_value"), Json.num (-28)),
     (("unrealized_pnl"), Json.num 7),
     (("pnl_percent"), Json.num 20)]]

/-- `sum(p[key] for p in ps)` over the fixed simulated records, whose keys
are always present and numeric. -/
def simSumKey (key : String) : List Json → ℚ
  | [] => 0
  | p :: ps =>
    qadd
      (match p with
       | Json.obj fields =>
         match jsonLookup key fields with
         | some (Json.num q) => q
         | _ => 0
       | _ => 0)
      (simSumKey key ps)

/-- `_get_simulated_positions` (wallet_tracking_service.py lines 60-113).
`uniformSample` is the value drawn by `random.uniform(-5, 15)`. -/
def simulated_positions (address : String) (uniformSample : ℚ) : Json :=
  let buying := simBuyingPositions
  let selling := simSellingPositions
  let total_value := simSumKey ("current_value") (buying ++ selling)
  let total_unrealized_pnl := simSumKey ("unrealized_pnl") (buying ++ selling)
  let realized_pnl := uniformSample
  Json.obj
    [(("address"), Json.str address),
     (("buying_positions"), Json.arr buying),
     (("selling_positions"), Json.arr selling),
     (("total_positions"), Json.num ((buying.length + selling.length : ℕ) : ℚ)),
     (("total_value"), Json.num total_value),
     (("unrealized_pnl"), Json.num total_unrealized_pnl),
     (("realized_pnl"), Json.num realized_pnl),
     (("total_pnl"), Json.num (qadd total_unrealized_pnl realized_pnl))]

/-- `get_wallet_detailed_positions` (wallet_tracking_service.py lines
16-58).  `fetched` is the result of the upstream request including
`raise_for_status` and JSON decoding; any exception anywhere in the try
body falls back to the simulated data. -/
def get_wallet_detailed_positions (address : String)
    (fetched : Except PyError Json) (uniformSample : ℚ) : Json :=
  match fetched with
  | Except.error _ => simulated_positions address uniformSample
  | Except.ok data =>
    match live_detailed_positions address data with
    | Except.ok r => r
    | Except.error _ => simulated_positions address uniformSample

/-! ## wallet_tracking_service.py: activity feed -/

/-- The random draws consumed by `_get_simulated_activity`, one per loop
index: the BUY/SELL choice, the market choice, the `random.random()` draw
for the outcome, and the rounded uniform draws for shares and price. -/
structure ActivityRandom where
  action : ℕ → Fin 2
  market : ℕ → Fin 4
  outcomeDraw : ℕ → ℚ
  shares : ℕ → ℚ
  price : ℕ → ℚ

/-- The market names of `_get_simulated_activity` (lines 139-144). -/
def simMarkets : List String :=
  [("Bitcoin $100k by March"), ("Ethereum $5k by Q2"),
   ("Trump wins 2026 election"), ("S&P 500 below 5000")]

/-- One invented activity record (lines 150-157); the timestamp is
`base_time - 15 * i` minutes. -/
def simulated_activity_item (r : ActivityRandom) (base_time : ℤ) (i : ℕ) : Json :=
  Json.obj
    [(("action"), Json.str (if r.action i = 0 then ("BUY") else ("SELL"))),
     (("market"), Json.str (simMarkets.getD (r.market i) (""))),
     (("outcome"), Json.str (if qblt (mkRat 1 2) (r.outcomeDraw i) then ("Yes") else ("No"))),
     (("shares"), Json.num (r.shares i)),
     (("price"), Json.num (r.price i)),
     (("timestamp"), Json.num ((base_time - 15 * (i : ℤ) : ℤ) : ℚ))]

/-- `_get_simulated_activity` (wallet_tracking_service.py lines 131-159):
`min(limit, 20)` invented trades. -/
def simulated_activity (limit : ℕ) (r : ActivityRandom) (base_time : ℤ) : Json :=
  Json.arr ((List.range (min limit 20)).map (simulated_activity_item r base_time))

/-- `get_wallet_activity_feed` (wallet_tracking_service.py lines 115-129):
`return trades if trades else self._get_simulated_activity(...)`, and the
same fallback on any exception. -/
def get_wallet_activity_feed (limit : ℕ) (fetched : Except PyError Json)
    (r : ActivityRandom) (base_time : ℤ) : Json :=
  match fetched with
  | Except.ok trades =>
    if jsonTruthy trades then trades else simulated_activity limit r base_time
  | Except.error _ => simulated_activity limit r base_time

/-! ## Concrete oracle replies used by the specification's scenarios -/

/-- A well-formed BUY reply. -/
def oracleRespBuy : String :=
  "\x7b\"signal_type\":\"BUY\",\"confidence\":0.8,\"reason\":\"r\"\x7d"

/-- A well-formed reply whose signal_type is the unrecognized HOLD. -/
def oracleRespHold : String :=
  "\x7b\"signal_type\":\"HOLD\",\"confidence\":0.5,\"reason\":\"x\"\x7d"

/-- A code-fenced reply missing the confidence field. -/
def oracleRespFencedNoConf : String :=
  "```json\n\x7b\"signal_type\":\"BUY\"\x7d\n```"

/-- A reply whose confidence is not coercible to a float. -/
def oracleRespBadConf : String :=
  "\x7b\"signal_type\":\"BUY\",\"confidence\":\"abc\",\"reason\":\"r\"\x7d"

/-! ## Theorems -/

theorem min_mul_min_sixty (k a : ℕ) (hk : 0 < k) :
    min (k * min a 60) 60 = min (k * a) 60 := by
  rcases le_total a 60 with h | h
  · rw [Nat.min_eq_left h]
  · rw [Nat.min_eq_right h]
    have h1 : 60 ≤ k * 60 := Nat.le_mul_of_pos_left 60 hk
    have h2 : 60 ≤ k * a := le_trans h1 (Nat.mul_le_mul_left k h)
    rw [Nat.min_eq_right h1, Nat.min_eq_right h2]

theorem connectSleeps_failure_delays (N : ℕ) :
    ∀ d, d ≤ 60 → ∀ i, i < N →
      (connectSleeps d (List.replicate N ConnEvent.failure))[i]? =
        some (min (2 ^ i * d) 60) := by
  induction N with
  | zero => intro d _ i h; exact absurd h (Nat.not_lt_zero i)
  | succ N ih =>
    intro d hd i hi
    rw [List.replicate_succ]
    cases i with
    | zero =>
      simp [connectSleeps, Nat.min_eq_left hd]
    | succ i =>
      have hstep : nextReconnectDelay d ≤ 60 := Nat.min_le_right _ _
      have hrec := ih (nextReconnectDelay d) hstep i (Nat.lt_of_succ_lt_succ hi)
      simp only [connectSleeps, List.getElem?_cons_succ]
      rw [hrec]
      congr 1
      rw [nextReconnectDelay, min_mul_min_sixty (2 ^ i) (d * 2) (Nat.two_pow_pos i)]
      congr 1
      ring

/-- The delay carried by the connect loop after processing a trace of
iteration outcomes. -/
def delayAfter : ℕ → List ConnEvent → ℕ
  | d, [] => d
  | d, ConnEvent.failure :: es => delayAfter (nextReconnectDelay d) es
  | _, ConnEvent.success :: es => delayAfter 1 es

theorem connectSleeps_append (d : ℕ) (xs ys : List ConnEvent) :
    connectSleeps d (xs ++ ys) =
      connectSleeps d xs ++ connectSleeps (delayAfter d xs) ys := by
  induction xs generalizing d with
  | nil => rfl
  | cons x xs ih =>
    cases x with
    | failure => simp [connectSleeps, delayAfter, ih]
    | success => simp [connectSleeps, delayAfter, ih]

theorem connectSleeps_replicate_length (d N : ℕ) :
    (connectSleeps d (List.replicate N ConnEvent.failure)).length = N := by
  induction N generalizing d with
  | zero => rfl
  | succ N ih => simp [List.replicate_succ, connectSleeps, ih]

/-- Claim C3: in push mode, over any trace, a successful connection resets
the backoff state to the initial delay 1; and within a run of N consecutive
transport failures starting from a fresh delay — at connector start or
right after a successful connection, whatever follows the run — the delay
slept before the i+1st retry is min(2^i, 60) time-units. -/
theorem reconnect_backoff_spec :
    (∀ d es, connectSleeps d (ConnEvent.success :: es) = connectSleeps 1 es)
    ∧ (∀ N i, i < N →
        (connectSleeps 1 (List.replicate N ConnEvent.failure))[i]? =
          some (min (2 ^ i) 60))
    ∧ ∀ d es N i, i < N →
        (connectSleeps d
            (ConnEvent.success :: (List.replicate N ConnEvent.failure ++ es)))[i]? =
          some (min (2 ^ i) 60) := by
  have key : ∀ N i, i < N →
      (connectSleeps 1 (List.replicate N ConnEvent.failure))[i]? =
        some (min (2 ^ i) 60) := by
    intro N i h
    have := connectSleeps_failure_delays N 1 (by omega) i h
    rwa [Nat.mul_one] at this
  refine ⟨fun d es => rfl, key, ?_⟩
  intro d es N i h
  show (connectSleeps 1 (List.replicate N ConnEvent.failure ++ es))[i]? = _
  rw [connectSleeps_append,
    List.getElem?_append_left (by rw [connectSleeps_replicate_length]; exact h)]
  exact key N i h

theorem reconnect_backoff_spec_instance :
    (connectSleeps 4
        (ConnEvent.success ::
          (List.replicate 7 ConnEvent.failure ++ [ConnEvent.success])))[6]? =
      some (min (2 ^ 6) 60) :=
  reconnect_backoff_spec.2.2 4 [ConnEvent.success] 7 6 (by omega)

/-- Claim C6: the monitor loop terminates only on an explicit shutdown
request (task cancellation); a tick that raises an ordinary error is
caught, and the loop sleeps the 5-time-unit interval and proceeds, so a
trace free of cancellations makes the loop process every tick and continue
after each one. -/
theorem monitor_loop_containment :
    (∀ o, monitor_loop_step o = LoopAction.terminated ↔ o = TickOutcome.cancelled)
    ∧ (∀ e, monitor_loop_step (TickOutcome.raised e) = LoopAction.sleepThenContinue 5)
    ∧ ∀ os, TickOutcome.cancelled ∉ os →
        monitor_prices_trace os = os.map (fun _ => LoopAction.sleepThenContinue 5) := by
  refine ⟨?_, fun e => rfl, ?_⟩
  · intro o
    cases o <;> simp [monitor_loop_step]
  · intro os h
    induction os with
    | nil => rfl
    | cons o os ih =>
      have ho : o ≠ TickOutcome.cancelled := fun he => h (he ▸ List.mem_cons_self o os)
      have hos : TickOutcome.cancelled ∉ os := fun he => h (List.mem_cons_of_mem o he)
      cases o with
      | completed eff => simp [monitor_prices_trace, monitor_loop_step, ih hos]
      | raised e => simp [monitor_prices_trace, monitor_loop_step, ih hos]
      | cancelled => exact absurd rfl ho

theorem monitor_loop_containment_instance :
    monitor_prices_trace
        [TickOutcome.raised PyError.valueError,
         TickOutcome.completed (TickEffects.mk [] [] false)] =
      [LoopAction.sleepThenContinue 5, LoopAction.sleepThenContinue 5] :=
  monitor_loop_containment.2.2 _ (by decide)

/-- Claim C8 counterexample: the message consisting of the single JSON
number 7 parses as JSON and lacks the price field, yet the listener loop
does not continue to the next message: the membership test raises
TypeError, which exits the listener (triggering a reconnect) — the cell is
preserved, but the loop does not proceed silently. -/
theorem listen_nonobject_message_exits :
    listen_step (ListenerState.mk (some 5) (some 0)) 1 ("7") =
      (ListenerState.mk (some 5) (some 0), ListenOutcome.listenerExit) := rfl

theorem listen_body_ok_shape (st : ListenerState) (now : ℕ) (msg : String)
    (st2 : ListenerState) (hb : listen_body st now msg = Except.ok st2) :
    st2 = st ∨ ∃ q, st2 = ListenerState.mk (some q) (some now) := by
  unfold listen_body at hb
  split at hb
  · cases hb
  · split at hb
    · cases hb
    · split at hb
      · split at hb
        · cases hb
        · split at hb
          · cases hb
          · simp only [Except.ok.injEq] at hb
            exact Or.inr ⟨_, hb.symm⟩
      · simp only [Except.ok.injEq] at hb
        exact Or.inl hb.symm

/-- Claim C8 (amended): a message that parses as a JSON object lacking the
price field is dropped silently — the two price fields keep their prior
values and the loop continues; every message step either leaves the state
unchanged or installs a complete new sample (the cell is never corrupted);
but a message that parses as non-object JSON, on which the membership test
raises TypeError, leaves the state unchanged and exits the listener loop
instead of continuing. -/
theorem listen_malformed_tick_handling :
    (∀ st now msg fields, parseJson msg = some (Json.obj fields) →
        jsonLookup ("p") fields = none →
        listen_step st now msg = (st, ListenOutcome.continueListening))
    ∧ (∀ st now msg, (listen_step st now msg).1 = st ∨
        ∃ q, (listen_step st now msg).1 = ListenerState.mk (some q) (some now))
    ∧ (∀ st now msg j, parseJson msg = some j →
        pyContains ("p") j = Except.error PyError.typeError →
        listen_step st now msg = (st, ListenOutcome.listenerExit)) := by
  refine ⟨?_, ?_, ?_⟩
  · intro st now msg fields h1 h2
    simp [listen_step, listen_body, h1, pyContains, h2]
  · intro st now msg
    cases hb : listen_body st now msg with
    | error e => simp [listen_step, hb]
    | ok st2 =>
      have := listen_body_ok_shape st now msg st2 hb
      simpa [listen_step, hb] using this
  · intro st now msg j h1 h2
    simp [listen_step, listen_body, h1, h2]

theorem listen_malformed_tick_handling_instance :
    listen_step (ListenerState.mk (some 5) (some 0)) 2 ("\x7b\"e\":\"trade\"\x7d") =
      (ListenerState.mk (some 5) (some 0), ListenOutcome.continueListening) :=
  listen_malformed_tick_handling.1 (ListenerState.mk (some 5) (some 0)) 2
    ("\x7b\"e\":\"trade\"\x7d") [(("e"), Json.str ("trade"))] rfl rfl

theorem generate_signal_try_ok_some_shape (b : ℚ) (d : PolyData) (resp freshId : String)
    (now : ℕ) (s : Signal)
    (h : generate_signal_try (some b) (some d) resp freshId now = Except.ok (some s)) :
    s.binance_price = b ∧ s.polymarket_price = PolyData.getPrice d
    ∧ s.price_delta = qsub b (PolyData.getPrice d)
    ∧ s.id = freshId ∧ s.timestamp = now := by
  unfold generate_signal_try at h
  dsimp only [] at h
  by_cases hb0 : b = 0
  · rw [if_pos hb0] at h
    simp at h
  · rw [if_neg hb0] at h
    split at h
    · simp at h
    · split at h
      · cases h
      · split at h
        · cases h
        · split at h
          · cases h
          · split at h
            · cases h
            · split at h
              · cases h
              · split at h
                · cases h
                · simp only [Except.ok.injEq, Option.some.injEq] at h
                  rw [← h]
                  exact ⟨rfl, rfl, rfl, rfl, rfl⟩

theorem generate_signal_some_shape (b : ℚ) (d : PolyData) (resp freshId : String)
    (now : ℕ) (s : Signal)
    (h : generate_signal (some b) (some d) resp freshId now = some s) :
    s.binance_price = b ∧ s.polymarket_price = PolyData.getPrice d
    ∧ s.price_delta = qsub b (PolyData.getPrice d)
    ∧ s.id = freshId ∧ s.timestamp = now := by
  unfold generate_signal at h
  cases ht : generate_signal_try (some b) (some d) resp freshId now with
  | error e => rw [ht] at h; cases h
  | ok r =>
    rw [ht] at h
    cases r with
    | none => cases h
    | some s2 =>
      cases h
      exact generate_signal_try_ok_some_shape b d resp freshId now s ht

/-- Claim C1 counterexample: with the Binance price present and the
prediction-market lookup yielding no market, get_current_prices does not
report an unavailable outcome — it returns a normal 200 body substituting
0 for the market price and 0 for the delta. -/
theorem get_current_prices_zero_fallback :
    get_current_prices true (some 98750) none = ApiResponse.ok 98750 0 0 := rfl

/-- Claim C1 (amended): generate_signal returns no signal whenever either
source is missing and, when it does return a signal, that signal carries
the genuine prices (never a substituted zero); get_current_prices reports
service-unavailable only when the spot price is absent — when the
prediction-market lookup yields no market it responds normally with market
price 0 and delta 0, and when both sources are available it returns the
real snapshot. -/
theorem price_data_availability :
    (∀ pd, get_current_prices true none pd =
        ApiResponse.httpError 503 ("Binance price not available"))
    ∧ (∀ b, get_current_prices true (some b) none = ApiResponse.ok b 0 0)
    ∧ (∀ b d, get_current_prices true (some b) (some d) =
        ApiResponse.ok b (PolyData.getPrice d) (b - PolyData.getPrice d))
    ∧ (∀ pd resp i t, generate_signal none pd resp i t = none)
    ∧ (∀ bp resp i t, generate_signal bp none resp i t = none)
    ∧ (∀ b d resp i t s, generate_signal (some b) (some d) resp i t = some s →
        s.binance_price = b ∧ s.polymarket_price = PolyData.getPrice d) := by
  refine ⟨fun pd => rfl, fun b => rfl, ?_, ?_, ?_, ?_⟩
  · intro b d
    show ApiResponse.ok b (PolyData.getPrice d) (qsub b (PolyData.getPrice d)) = _
    rw [qsub_eq_sub]
  · intro pd resp i t
    cases pd <;> rfl
  · intro bp resp i t
    cases bp <;> rfl
  · intro b d resp i t s h
    have := generate_signal_some_shape b d resp i t s h
    exact ⟨this.1, this.2.1⟩

theorem price_data_availability_instance :
    (Signal.mk ("s1") ("BUY") (mkRat 4 5) ("r") 98750 (mkRat 13 20)
        (mkRat 1974987 20) 0).binance_price = 98750
    ∧ (Signal.mk ("s1") ("BUY") (mkRat 4 5) ("r") 98750 (mkRat 13 20)
        (mkRat 1974987 20) 0).polymarket_price =
      PolyData.getPrice (PolyData.mk (mkRat 13 20) 0) :=
  price_data_availability.2.2.2.2.2 98750 (PolyData.mk (mkRat 13 20) 0)
    oracleRespBuy ("s1") 0
    (Signal.mk ("s1") ("BUY") (mkRat 4 5) ("r") 98750 (mkRat 13 20) (mkRat 1974987 20) 0)
    rfl

/-- Claim C2 counterexample: an oracle reply with the unrecognized
signal_type HOLD and a well-formed confidence is not rejected — a Signal
with signal_type HOLD is constructed and returned. -/
theorem hold_direction_not_rejected :
    generate_signal (some 98750) (some (PolyData.mk (mkRat 13 20) 0))
        oracleRespHold ("s1") 0 =
      some (Signal.mk ("s1") ("HOLD") (mkRat 1 2) ("x") 98750 (mkRat 13 20)
        (mkRat 1974987 20) 0) := rfl

/-- Claim C2 (amended): a reply whose confidence is not coercible to a
float yields no signal and raises nothing past the boundary, but the
direction is never validated: a parseable reply with any string
signal_type — HOLD included — and coercible confidence yields a Signal
carrying that signal_type verbatim. -/
theorem decision_policy_direction_unchecked :
    (∀ bp pd resp i t j c er,
        parseJsonChars (extractResponseText resp) = some j →
        pySubscript ("confidence") j = Except.ok c →
        pyFloat c = Except.error er →
        generate_signal bp pd resp i t = none)
    ∧ (∀ b d i t, b ≠ 0 →
        generate_signal (some b) (some d) oracleRespHold i t =
          some (Signal.mk i ("HOLD") (mkRat 1 2) ("x") b (PolyData.getPrice d)
            (b - PolyData.getPrice d) t)) := by
  constructor
  · intro bp pd resp i t j c er hp hc hf
    cases bp with
    | none => rfl
    | some b =>
      cases pd with
      | none => rfl
      | some d =>
        by_cases hb0 : b = 0
        · simp [generate_signal, generate_signal_try, hb0]
        · unfold generate_signal generate_signal_try
          dsimp only []
          rw [if_neg hb0, hp]
          cases hst : pySubscript ("signal_type") j with
          | error e => simp [hst]
          | ok st => simp [hst, hc, hf]
  · intro b d i t hb0
    have hp : parseJsonChars (extractResponseText oracleRespHold) =
        some (Json.obj [(("signal_type"), Json.str ("HOLD")),
          (("confidence"), Json.num (mkRat 1 2)),
          (("reason"), Json.str ("x"))]) := rfl
    unfold generate_signal generate_signal_try
    dsimp only []
    rw [if_neg hb0, hp]
    show some (Signal.mk i ("HOLD") (mkRat 1 2) ("x") b (PolyData.getPrice d)
        (qsub b (PolyData.getPrice d)) t) = _
    rw [qsub_eq_sub]

theorem decision_policy_direction_unchecked_instance :
    generate_signal (some 3) (some (PolyData.mk 1 0)) oracleRespBadConf ("s2") 5 = none :=
  decision_policy_direction_unchecked.1 (some 3) (some (PolyData.mk 1 0))
    oracleRespBadConf ("s2") 5
    (Json.obj [(("signal_type"), Json.str ("BUY")),
      (("confidence"), Json.str ("abc")), (("reason"), Json.str ("r"))])
    (Json.str ("abc")) PyError.valueError rfl rfl rfl

/-- Claim C5: an oracle reply that cannot be parsed as JSON after stripping
an optional code fence — including the literal text of a non-JSON reply
and a fenced reply missing the confidence field — degrades to no signal,
the fence is stripped before parsing, and any error raised inside the try
body is absorbed by the boundary handler into no signal. -/
theorem oracle_parse_failures_degrade :
    (∀ bp pd i t resp, parseJsonChars (extractResponseText resp) = none →
        generate_signal bp pd resp i t = none)
    ∧ (∀ bp pd i t, generate_signal bp pd ("not json") i t = none)
    ∧ (∀ bp pd i t, generate_signal bp pd oracleRespFencedNoConf i t = none)
    ∧ (extractResponseText oracleRespFencedNoConf =
        ("\x7b\"signal_type\":\"BUY\"\x7d").data)
    ∧ (∀ bp pd resp i t e, generate_signal_try bp pd resp i t = Except.error e →
        generate_signal bp pd resp i t = none) := by
  refine ⟨?_, ?_, ?_, rfl, ?_⟩
  · intro bp pd i t resp hp
    cases bp with
    | none => rfl
    | some b =>
      cases pd with
      | none => rfl
      | some d =>
        by_cases hb0 : b = 0
        · simp [generate_signal, generate_signal_try, hb0]
        · unfold generate_signal generate_signal_try
          dsimp only []
          rw [if_neg hb0, hp]
  · intro bp pd i t
    have hp : parseJsonChars (extractResponseText ("not json")) = none := rfl
    cases bp with
    | none => rfl
    | some b =>
      cases pd with
      | none => rfl
      | some d =>
        by_cases hb0 : b = 0
        · simp [generate_signal, generate_signal_try, hb0]
        · unfold generate_signal generate_signal_try
          dsimp only []
          rw [if_neg hb0, hp]
  · intro bp pd i t
    have hp : parseJsonChars (extractResponseText oracleRespFencedNoConf) =
        some (Json.obj [(("signal_type"), Json.str ("BUY"))]) := rfl
    cases bp with
    | none => rfl
    | some b =>
      cases pd with
      | none => rfl
      | some d =>
        by_cases hb0 : b = 0
        · simp [generate_signal, generate_signal_try, hb0]
        · unfold generate_signal generate_signal_try
          dsimp only []
          rw [if_neg hb0, hp]
          rfl
  · intro bp pd resp i t e h
    simp [generate_signal, h]

theorem oracle_parse_failures_degrade_instance :
    generate_signal (some 2) (some (PolyData.mk 1 0)) ("garbage reply") ("s3") 9 = none :=
  oracle_parse_failures_degrade.1 (some 2) (some (PolyData.mk 1 0)) ("s3") 9
    ("garbage reply") rfl

/-- Claim C7: whenever both prices are available, the delta is the raw
arithmetic difference between the spot price and the market probability —
no unit conversion, no normalization: every signal produced carries
price_delta equal to its own binance_price minus its own polymarket_price,
both taken verbatim from the current readings, and the price-update event
of a tick carries the same raw difference.  Both computations are
functions of the current pair of readings alone (their arguments include
no history), so no smoothing or averaging over past values is possible. -/
theorem delta_raw_difference :
    (∀ b d resp i t s, generate_signal (some b) (some d) resp i t = some s →
        s.price_delta = b - PolyData.getPrice d
        ∧ s.price_delta = s.binance_price - s.polymarket_price)
    ∧ (∀ b d resp i t, b ≠ 0 →
        ((monitor_tick true (some b) (some d) resp i t).emitted)[0]? =
          some (EmittedEvent.price_update b (PolyData.getPrice d)
            (b - PolyData.getPrice d) t)) := by
  constructor
  · intro b d resp i t s h
    obtain ⟨h1, h2, h3, _, _⟩ := generate_signal_some_shape b d resp i t s h
    rw [qsub_eq_sub] at h3
    exact ⟨h3, by rw [h1, h2, h3]⟩
  · intro b d resp i t hb0
    unfold monitor_tick
    dsimp only []
    rw [if_neg hb0, ← qsub_eq_sub]
    by_cases hq : qblt 100 (qabs (qsub b (PolyData.getPrice d))) = true
    · rw [if_pos hq]
      cases hg : generate_signal (some b) (some d) resp i t with
      | some s => rfl
      | none => rfl
    · rw [if_neg hq]
      rfl

theorem delta_raw_difference_instance :
    (Signal.mk ("s1") ("BUY") (mkRat 4 5) ("r") 98750 (mkRat 13 20)
        (mkRat 1974987 20) 0).price_delta =
      98750 - PolyData.getPrice (PolyData.mk (mkRat 13 20) 0)
    ∧ (Signal.mk ("s1") ("BUY") (mkRat 4 5) ("r") 98750 (mkRat 13 20)
        (mkRat 1974987 20) 0).price_delta =
      (Signal.mk ("s1") ("BUY") (mkRat 4 5) ("r") 98750 (mkRat 13 20)
        (mkRat 1974987 20) 0).binance_price -
      (Signal.mk ("s1") ("BUY") (mkRat 4 5) ("r") 98750 (mkRat 13 20)
        (mkRat 1974987 20) 0).polymarket_price :=
  delta_raw_difference.1 98750 (PolyData.mk (mkRat 13 20) 0) oracleRespBuy ("s1") 0
    (Signal.mk ("s1") ("BUY") (mkRat 4 5) ("r") 98750 (mkRat 13 20) (mkRat 1974987 20) 0)
    rfl

/-- Claim C4: on a tick with services up and both prices available, the
price-update event is published first; the decision policy is invoked
exactly when services are up, the spot price is available and nonzero, the
market data is present, and the absolute raw delta exceeds the default
threshold 100; when the policy returns a signal it is persisted and a
new-signal event is published alongside the price-update event; and in the
spec's concrete scenario (spot 98750, market probability 0.65, oracle
answering BUY with confidence 0.8) the tick publishes both events and
persists the BUY signal with confidence 0.8. -/
theorem monitor_tick_spec :
    (∀ b d resp i t, b ≠ 0 →
        ((monitor_tick true (some b) (some d) resp i t).emitted)[0]? =
          some (EmittedEvent.price_update b (PolyData.getPrice d)
            (b - PolyData.getPrice d) t))
    ∧ (∀ ready bp pd resp i t,
        (monitor_tick ready bp pd resp i t).policy_invoked = true ↔
          (ready = true ∧ ∃ b, bp = some b ∧ b ≠ 0 ∧ ∃ d, pd = some d ∧
            100 < |b - PolyData.getPrice d|))
    ∧ (∀ b d resp i t s, b ≠ 0 → 100 < |b - PolyData.getPrice d| →
        generate_signal (some b) (some d) resp i t = some s →
        (monitor_tick true (some b) (some d) resp i t).emitted =
          [EmittedEvent.price_update b (PolyData.getPrice d)
            (b - PolyData.getPrice d) t, EmittedEvent.new_signal s]
        ∧ (monitor_tick true (some b) (some d) resp i t).persisted = [s])
    ∧ (monitor_tick true (some 98750) (some (PolyData.mk (mkRat 13 20) 0))
        oracleRespBuy ("s1") 3 =
      TickEffects.mk
        [EmittedEvent.price_update 98750 (mkRat 13 20) (mkRat 1974987 20) 3,
         EmittedEvent.new_signal (Signal.mk ("s1") ("BUY") (mkRat 4 5) ("r")
           98750 (mkRat 13 20) (mkRat 1974987 20) 3)]
        [Signal.mk ("s1") ("BUY") (mkRat 4 5) ("r") 98750 (mkRat 13 20)
          (mkRat 1974987 20) 3]
        true) := by
  refine ⟨?_, ?_, ?_, rfl⟩
  · intro b d resp i t hb0
    unfold monitor_tick
    dsimp only []
    rw [if_neg hb0, ← qsub_eq_sub]
    by_cases hq : qblt 100 (qabs (qsub b (PolyData.getPrice d))) = true
    · rw [if_pos hq]
      cases hg : generate_signal (some b) (some d) resp i t with
      | some s => rfl
      | none => rfl
    · rw [if_neg hq]
      rfl
  · intro ready bp pd resp i t
    cases ready with
    | false => simp [monitor_tick]
    | true =>
      cases bp with
      | none => simp [monitor_tick]
      | some b =>
        cases pd with
        | none =>
          by_cases hb0 : b = 0 <;> simp [monitor_tick, hb0]
        | some d =>
          by_cases hb0 : b = 0
          · simp [monitor_tick, hb0]
          · have hiff : qblt 100 (qabs (qsub b (PolyData.getPrice d))) = true ↔
                100 < |b - PolyData.getPrice d| := by
              rw [qblt_iff_lt, qabs_eq_abs, qsub_eq_sub]
            by_cases hq : qblt 100 (qabs (qsub b (PolyData.getPrice d))) = true
            · cases hg : generate_signal (some b) (some d) resp i t with
              | some s => simp [monitor_tick, hb0, hq, hg, hiff.mp hq]
              | none => simp [monitor_tick, hb0, hq, hg, hiff.mp hq]
            · have hnot : ¬ (100 < |b - PolyData.getPrice d|) :=
                fun hlt => hq (hiff.mpr hlt)
              simp [monitor_tick, hb0, hq, hnot]
  · intro b d resp i t s hb0 h100 hg
    have hq : qblt 100 (qabs (qsub b (PolyData.getPrice d))) = true := by
      rw [qblt_iff_lt, qabs_eq_abs, qsub_eq_sub]
      exact h100
    unfold monitor_tick
    dsimp only []
    rw [if_neg hb0, if_pos hq, hg, ← qsub_eq_sub]
    exact ⟨rfl, rfl⟩

theorem monitor_tick_spec_instance :
    (monitor_tick true (some 98750) (some (PolyData.mk (mkRat 13 20) 0))
        oracleRespBuy ("s1") 3).emitted =
      [EmittedEvent.price_update 98750
        (PolyData.getPrice (PolyData.mk (mkRat 13 20) 0))
        (98750 - PolyData.getPrice (PolyData.mk (mkRat 13 20) 0)) 3,
       EmittedEvent.new_signal (Signal.mk ("s1") ("BUY") (mkRat 4 5) ("r")
         98750 (mkRat 13 20) (mkRat 1974987 20) 3)]
    ∧ (monitor_tick true (some 98750) (some (PolyData.mk (mkRat 13 20) 0))
        oracleRespBuy ("s1") 3).persisted =
      [Signal.mk ("s1") ("BUY") (mkRat 4 5) ("r") 98750 (mkRat 13 20)
        (mkRat 1974987 20) 3] :=
  monitor_tick_spec.2.2.1 98750 (PolyData.mk (mkRat 13 20) 0) oracleRespBuy ("s1") 3
    (Signal.mk ("s1") ("BUY") (mkRat 4 5) ("r") 98750 (mkRat 13 20) (mkRat 1974987 20) 3)
    (by decide)
    (by rw [← qsub_eq_sub, ← qabs_eq_abs, ← qblt_iff_lt]; rfl)
    rfl

/-- Claim C9: when the upstream positions fetch fails for any reason, the
endpoint returns the fabricated simulated data; the simulated record has
exactly the same top-level keys as a successfully computed live response
and carries no key tagging it as simulated (no source or simulated field),
so a caller cannot tell the fallback apart from live state by its shape. -/
theorem simulated_fallback_untagged :
    (∀ address e sample,
        get_wallet_detailed_positions address (Except.error e) sample =
          simulated_positions address sample)
    ∧ (∀ address data sample r,
        live_detailed_positions address data = Except.ok r →
        objKeys (simulated_positions address sample) = objKeys r)
    ∧ (∀ address sample,
        ("source") ∉ objKeys (simulated_positions address sample)
        ∧ ("simulated") ∉ objKeys (simulated_positions address sample)) := by
  refine ⟨fun address e sample => rfl, ?_, ?_⟩
  · intro address data sample r h
    unfold live_detailed_positions at h
    split at h
    · cases h
    · split at h
      · cases h
      · split at h
        · cases h
        · split at h
          · cases h
          · split at h
            · cases h
            · simp only [Except.ok.injEq] at h
              rw [← h]
              rfl
  · intro address sample
    have hk : objKeys (simulated_positions address sample) =
        [("address"), ("buying_positions"), ("selling_positions"),
         ("total_positions"), ("total_value"), ("unrealized_pnl"),
         ("realized_pnl"), ("total_pnl")] := rfl
    rw [hk]
    constructor <;> decide

theorem simulated_fallback_untagged_instance :
    objKeys (simulated_positions ("w") 0) =
      objKeys (Json.obj
        [(("address"), Json.str ("w")),
         (("buying_positions"), Json.arr []),
         (("selling_positions"), Json.arr []),
         (("total_positions"), Json.num 0),
         (("total_value"), Json.num 0),
         (("unrealized_pnl"), Json.num 0),
         (("realized_pnl"), Json.num 0),
         (("total_pnl"), Json.num (qadd 0 0))]) :=
  simulated_fallback_untagged.2.1 ("w") (Json.arr []) 0
    (Json.obj
      [(("address"), Json.str ("w")),
       (("buying_positions"), Json.arr []),
       (("selling_positions"), Json.arr []),
       (("total_positions"), Json.num 0),
       (("total_value"), Json.num 0),
       (("unrealized_pnl"), Json.num 0),
       (("realized_pnl"), Json.num 0),
       (("total_pnl"), Json.num (qadd 0 0))])
    rfl

/-- Claim C10: the activity feed substitutes fabricated simulated trades
not only when the upstream request fails but also when it succeeds with an
empty (falsy) list — and the simulated feed is nonempty whenever the
requested limit is at least 1, so a wallet whose genuine activity is empty
receives invented trades instead of the true empty result; a truthy
upstream result is passed through unchanged. -/
theorem empty_activity_simulated :
    (∀ limit r bt, get_wallet_activity_feed limit (Except.ok (Json.arr [])) r bt =
        simulated_activity limit r bt)
    ∧ (∀ limit e r bt, get_wallet_activity_feed limit (Except.error e) r bt =
        simulated_activity limit r bt)
    ∧ (∀ limit r bt, 1 ≤ limit → simulated_activity limit r bt ≠ Json.arr [])
    ∧ (∀ limit trades r bt, jsonTruthy trades = true →
        get_wallet_activity_feed limit (Except.ok trades) r bt = trades) := by
  refine ⟨fun limit r bt => rfl, fun limit e r bt => rfl, ?_, ?_⟩
  · intro limit r bt hlim h
    unfold simulated_activity at h
    simp only [Json.arr.injEq, List.map_eq_nil_iff, List.range_eq_nil] at h
    omega
  · intro limit trades r bt h
    simp [get_wallet_activity_feed, h]

/-- A fixed stream of random draws, for instantiating the activity model. -/
def constActivityRandom : ActivityRandom :=
  ActivityRandom.mk (fun _ => 0) (fun _ => 0) (fun _ => 0) (fun _ => 0) (fun _ => 0)

theorem empty_activity_simulated_instance :
    simulated_activity 5 constActivityRandom 0 ≠ Json.arr [] :=
  empty_activity_simulated.2.2.1 5 constActivityRandom 0 (by omega)
